import Mathlib

/-!
Verification development for the `es-dev-server` package
(`packages/es-dev-server/src/server.js`): the pipeline configuration
resolver (`createConfig`), the server constructor (`startServer`), its
derived stage flags, appIndex normalization, middleware pipeline
assembly, compatibility-mode validation and the file-watcher lifecycle.

The JavaScript is embedded shallowly: the effectful `startServer` is
modelled as a pure function from a configuration (plus the ambient
working directory) to either a configuration error or a record of every
resolved value, derived flag, the assembled middleware chain and the
created file watcher; a separate event-trace function records the order
of the side effects (middleware registration, `listen`, the close
listener).  We model the POSIX platform: `path.sep` is `/` and
`path.isAbsolute` tests for a leading `/`.
-/

/-- POSIX path separator (`path.sep` in Node on POSIX). -/
def pathSep : Char := '/'

/-- Modelled from the spec: the Path Normalizer of
`utils/utils.js` (`toBrowserPath`), which is not under `src/`.  It
"converts filesystem paths to canonical browser-absolute URL paths" by
converting filesystem separators to `/`.  On POSIX the separator is
already `/`, so the conversion is the identity on POSIX paths. -/
def toBrowserPath (filePath : String) : String :=
  String.mk (filePath.data.map (fun c => if c = pathSep then '/' else c))

/-- JavaScript `String.prototype.startsWith`: whether the characters
of `p` are an initial run of the characters of `s`. -/
def jsStartsWith (s p : String) : Bool :=
  s.data.take p.data.length == p.data

/-- Node's `path.isAbsolute` on POSIX: a path is absolute iff it starts
with `/`. -/
def path.isAbsolute (p : String) : Bool :=
  jsStartsWith p "/"

/-- Split a POSIX path into its non-empty components. -/
def splitPathComponents (p : String) : List String :=
  (p.splitOn "/").filter (fun s => s ≠ "")

/-- Drop the common leading components of two component lists. -/
def dropCommonComponents : List String → List String → List String × List String
  | a :: as, b :: bs =>
    if a = b then dropCommonComponents as bs else (a :: as, b :: bs)
  | as, bs => (as, bs)

/-- Node's `path.relative` on POSIX, for already-resolved paths: drop
the common leading components, emit `..` for each remaining component
of `from`, then the remaining components of `to`. -/
def path.relative (f t : String) : String :=
  let p := dropCommonComponents (splitPathComponents f) (splitPathComponents t)
  String.intercalate "/" (p.1.map (fun _ => "..") ++ p.2)

/-- JavaScript `String.prototype.lastIndexOf` for a single character:
the index of its last occurrence, or `-1` when absent. -/
def lastIndexOf (s : String) (c : Char) : Int :=
  match s.data.reverse.findIdx? (fun x => x = c) with
  | some i => (s.length : Int) - 1 - (i : Int)
  | none => -1

/-- JavaScript `s.substring(0, e)`: a negative end index is clamped to
`0`. -/
def jsSubstringTo (s : String) (e : Int) : String :=
  String.mk (s.data.take (max e 0).toNat)

/-- Modelled from the spec: the closed compatibility-mode enum of
`constants.js` (not under `src/`): an object with members `NONE`,
`MODERN`, `ALL` naming the modes `none`, `modern`, `all`. -/
structure CompatibilityModes where
  NONE : String
  MODERN : String
  ALL : String

def compatibilityModes : CompatibilityModes :=
  { NONE := "none", MODERN := "modern", ALL := "all" }

/-- `Object.values(compatibilityModes)`, in declaration order. -/
def compatibilityModesValues : List String :=
  [compatibilityModes.NONE, compatibilityModes.MODERN, compatibilityModes.ALL]

/-- The configuration-error message thrown by `startServer` for an
unknown compatibility mode; `${Object.values(compatibilityModes)}`
stringifies a JS array by joining with `,`. -/
def unknownCompatibilityModeMessage (mode : String) : String :=
  "Unknown compatibility mode: " ++ mode ++ ". Must be one of: " ++
    String.intercalate "," compatibilityModesValues

/-- User-supplied Koa middlewares are opaque; we identify each by a
number. -/
abbrev Middleware := Nat

/-- `EsDevServerConfig` / `Config`: the partial input configuration;
`none` is an omitted (undefined) field. -/
structure Config where
  port : Option Nat := none
  hostname : Option String := none
  rootDir : Option String := none
  appIndex : Option String := none
  moduleDirectories : Option (List String) := none
  nodeResolve : Option Bool := none
  readUserBabelConfig : Option Bool := none
  customBabelConfig : Option Unit := none
  watch : Option Bool := none
  openBrowser : Option Bool := none
  openPath : Option String := none
  logStartup : Option Bool := none
  http2 : Option Bool := none
  compatibilityMode : Option String := none
  watchExcludes : Option (List String) := none
  watchDebounce : Option Nat := none
  extraFileExtensions : Option (List String) := none
  babelExclude : Option (List String) := none
  babelModernExclude : Option (List String) := none
  customMiddlewares : Option (List Middleware) := none

/-- The appIndex resolution block shared verbatim by `startServer`
(lines 65–79) and `createConfig` (lines 253–267): when `appIndex` is
truthy (a non-empty string), normalize it against `rootDir` and derive
`appIndexDir`; otherwise leave both untouched (`appIndexDir`
undefined). -/
def resolveAppIndex (rootDir appIndex : String) : String :=
  if path.isAbsolute appIndex then
    "/" ++ toBrowserPath (path.relative rootDir appIndex)
  else if !(jsStartsWith appIndex "/") then
    "/" ++ toBrowserPath appIndex
  else
    toBrowserPath appIndex

/-- `appIndexDir = appIndex.substring(0, appIndex.lastIndexOf('/'))`. -/
def appIndexDirOf (appIndex : String) : String :=
  jsSubstringTo appIndex (lastIndexOf appIndex '/')

/-- The pair (resolved `appIndex`, resolved `appIndexDir`) after the
`if (appIndex) { ... }` block: an empty string is falsy in JS, so it is
passed through with `appIndexDir` left undefined. -/
def resolveAppIndexPair (rootDir : String) (appIndex : Option String) :
    Option String × Option String :=
  match appIndex with
  | none => (none, none)
  | some s =>
    if s = "" then (some s, none)
    else
      let a := resolveAppIndex rootDir s
      (some a, some (appIndexDirOf a))

/-- The record returned by `createConfig`. -/
structure ResolvedConfig where
  port : Nat
  hostname : String
  rootDir : String
  appIndexDir : Option String
  appIndex : Option String
  moduleDirectories : List String
  nodeResolve : Bool
  readUserBabelConfig : Bool
  customBabelConfig : Option Unit
  watch : Bool
  openBrowser : Bool
  openPath : Option String
  logStartup : Bool
  http2 : Bool
  extraFileExtensions : List String
  compatibilityMode : String
  babelExclude : List String
  babelModernExclude : List String
  watchExcludes : List String
  watchDebounce : Nat
  customMiddlewares : Option (List Middleware)

/-- `createConfig` (lines 230–292): applies the documented defaults,
resolves `appIndex`/`appIndexDir`, and returns the full record.  It
performs no validation and can never throw.  `cwd` is the ambient
`process.cwd()`. -/
def createConfig (cwd : String) (config : Config) : ResolvedConfig :=
  let rootDir := config.rootDir.getD cwd
  let p := resolveAppIndexPair rootDir config.appIndex
  { port := config.port.getD 8080
    hostname := config.hostname.getD "127.0.0.1"
    rootDir := rootDir
    appIndexDir := p.2
    appIndex := p.1
    moduleDirectories := config.moduleDirectories.getD ["node_modules"]
    nodeResolve := config.nodeResolve.getD false
    readUserBabelConfig := config.readUserBabelConfig.getD false
    customBabelConfig := config.customBabelConfig
    watch := config.watch.getD false
    openBrowser := config.openBrowser.getD false
    openPath := config.openPath
    logStartup := config.logStartup.getD false
    http2 := config.http2.getD false
    extraFileExtensions := config.extraFileExtensions.getD []
    compatibilityMode := config.compatibilityMode.getD compatibilityModes.NONE
    babelExclude := config.babelExclude.getD []
    babelModernExclude := config.babelModernExclude.getD []
    watchExcludes := config.watchExcludes.getD ["node_modules/**"]
    watchDebounce := config.watchDebounce.getD 1000
    customMiddlewares := config.customMiddlewares }

/-- The stages of the request pipeline, in the roles they play in
`startServer`; `custom` is a user-supplied middleware. -/
inductive Stage where
  | custom (m : Middleware)
  | cache
  | etag
  | messageChannel
  | reloadBrowser
  | babel
  | transformIndexHTML
  | historyFallback
  | koaStatic
deriving DecidableEq, Repr

/-- `chokidar.watch([])`: a file watcher with its watched path set and
whether `close()` has been called. -/
structure FileWatcher where
  paths : List String
  closed : Bool
deriving DecidableEq, Repr

/-- Everything `startServer` computes when construction succeeds: the
resolved configuration values, the derived stage flags, the created
file watcher (or `none`) and the middleware chain in registration
order. -/
structure ServerResult where
  port : Nat
  hostname : String
  rootDir : String
  moduleDirectories : List String
  nodeResolve : Bool
  readUserBabelConfig : Bool
  customBabelConfig : Option Unit
  watch : Bool
  compatibilityMode : String
  watchExcludes : List String
  watchDebounce : Nat
  appIndex : Option String
  appIndexDir : Option String
  setupBabel : Bool
  setupCompatibility : Bool
  setupTransformIndexHTML : Bool
  setupHistoryFallback : Bool
  setupMessageChanel : Bool
  fileWatcher : Option FileWatcher
  middlewares : List Stage
deriving DecidableEq, Repr

/-- The successful branch of `startServer` (lines 42–196): defaulting,
appIndex resolution, flag derivation (lines 89–97), watcher creation
(line 101) and pipeline assembly (lines 103–166). -/
def startServerResolved (cwd : String) (config : Config) : ServerResult :=
  let rootDir := config.rootDir.getD cwd
  let nodeResolve := config.nodeResolve.getD false
  let readUserBabelConfig := config.readUserBabelConfig.getD false
  let customBabelConfig := config.customBabelConfig
  let watch := config.watch.getD false
  let compatibilityMode := config.compatibilityMode.getD compatibilityModes.NONE
  let p := resolveAppIndexPair rootDir config.appIndex
  let appIndex := p.1
  let appIndexDir := p.2
  let setupBabel :=
    customBabelConfig.isSome || nodeResolve ||
      [compatibilityModes.ALL, compatibilityModes.MODERN].contains compatibilityMode ||
      readUserBabelConfig
  let setupCompatibility :=
    (compatibilityMode != "") && (compatibilityMode != compatibilityModes.NONE)
  let setupTransformIndexHTML := setupBabel || setupCompatibility
  let setupHistoryFallback :=
    match appIndex with
    | some s => s != ""
    | none => false
  let setupMessageChanel := watch || setupBabel
  let fileWatcher : Option FileWatcher :=
    if watch then some { paths := [], closed := false } else none
  let middlewares :=
    (match config.customMiddlewares with
      | some ms => ms.map Stage.custom
      | none => []) ++
    [Stage.cache, Stage.etag] ++
    (if setupMessageChanel then [Stage.messageChannel] else []) ++
    (if watch then [Stage.reloadBrowser] else []) ++
    (if setupBabel then [Stage.babel] else []) ++
    (if setupTransformIndexHTML then [Stage.transformIndexHTML] else []) ++
    (if setupHistoryFallback then [Stage.historyFallback] else []) ++
    [Stage.koaStatic]
  { port := config.port.getD 8080
    hostname := config.hostname.getD "127.0.0.1"
    rootDir := rootDir
    moduleDirectories := config.moduleDirectories.getD ["node_modules"]
    nodeResolve := nodeResolve
    readUserBabelConfig := readUserBabelConfig
    customBabelConfig := customBabelConfig
    watch := watch
    compatibilityMode := compatibilityMode
    watchExcludes := config.watchExcludes.getD ["node_modules/**"]
    watchDebounce := config.watchDebounce.getD 1000
    appIndex := appIndex
    appIndexDir := appIndexDir
    setupBabel := setupBabel
    setupCompatibility := setupCompatibility
    setupTransformIndexHTML := setupTransformIndexHTML
    setupHistoryFallback := setupHistoryFallback
    setupMessageChanel := setupMessageChanel
    fileWatcher := fileWatcher
    middlewares := middlewares }

/-- `startServer` (lines 42–196): validates `compatibilityMode`
against the enum (lines 81–87), throwing the configuration error for
an unknown mode, and otherwise constructs the server.  (In the source
the appIndex-resolution block precedes the validation; both are pure,
so the order does not affect the result.) -/
def startServer (cwd : String) (config : Config) : Except String ServerResult :=
  let compatibilityMode := config.compatibilityMode.getD compatibilityModes.NONE
  if compatibilityModesValues.contains compatibilityMode then
    .ok (startServerResolved cwd config)
  else
    .error (unknownCompatibilityModeMessage compatibilityMode)

/-- The observable actions of `startServer`, in source order. -/
inductive ServerEvent where
  | threwConfigError (msg : String)
  | createdFileWatcher
  | usedMiddleware (s : Stage)
  | listen (port : Nat) (hostname : String)
  | addedCloseListener
deriving DecidableEq, Repr

/-- The trace of `startServer`'s side effects in source order: the
throw at lines 81–87 aborts the function, so an invalid mode produces
only the error; otherwise the watcher is created (line 101, only when
`watch`), each middleware is registered (lines 103–166), `listen` is
called (line 172) and the close listener is added (line 186). -/
def startServerEvents (cwd : String) (config : Config) : List ServerEvent :=
  let compatibilityMode := config.compatibilityMode.getD compatibilityModes.NONE
  if compatibilityModesValues.contains compatibilityMode then
    let r := startServerResolved cwd config
    (if r.watch then [ServerEvent.createdFileWatcher] else []) ++
      r.middlewares.map ServerEvent.usedMiddleware ++
      [ServerEvent.listen r.port r.hostname, ServerEvent.addedCloseListener]
  else
    [ServerEvent.threwConfigError (unknownCompatibilityModeMessage compatibilityMode)]

/-- The server's `close` listener (lines 186–190): if a file watcher
was created, close it. -/
def serverClose (r : ServerResult) : ServerResult :=
  { r with fileWatcher := r.fileWatcher.map (fun fw => { fw with closed := true }) }

/-! ## Helper lemmas: field values of `startServerResolved` -/

theorem startServerResolved_setupBabel (cwd : String) (config : Config) :
    (startServerResolved cwd config).setupBabel =
      (config.customBabelConfig.isSome || config.nodeResolve.getD false ||
        [compatibilityModes.ALL, compatibilityModes.MODERN].contains
          (config.compatibilityMode.getD compatibilityModes.NONE) ||
        config.readUserBabelConfig.getD false) := rfl

theorem startServerResolved_setupCompatibility (cwd : String) (config : Config) :
    (startServerResolved cwd config).setupCompatibility =
      (((config.compatibilityMode.getD compatibilityModes.NONE) != "") &&
        ((config.compatibilityMode.getD compatibilityModes.NONE) != compatibilityModes.NONE)) := rfl

theorem startServerResolved_setupTransformIndexHTML (cwd : String) (config : Config) :
    (startServerResolved cwd config).setupTransformIndexHTML =
      ((startServerResolved cwd config).setupBabel ||
        (startServerResolved cwd config).setupCompatibility) := rfl

theorem startServerResolved_setupMessageChanel (cwd : String) (config : Config) :
    (startServerResolved cwd config).setupMessageChanel =
      (config.watch.getD false || (startServerResolved cwd config).setupBabel) := rfl

theorem startServerResolved_compatibilityMode (cwd : String) (config : Config) :
    (startServerResolved cwd config).compatibilityMode =
      config.compatibilityMode.getD compatibilityModes.NONE := rfl

theorem startServerResolved_watch (cwd : String) (config : Config) :
    (startServerResolved cwd config).watch = config.watch.getD false := rfl

theorem startServerResolved_fileWatcher (cwd : String) (config : Config) :
    (startServerResolved cwd config).fileWatcher =
      (if config.watch.getD false then some { paths := [], closed := false } else none) := rfl

theorem startServerResolved_appIndex (cwd : String) (config : Config) :
    (startServerResolved cwd config).appIndex =
      (resolveAppIndexPair (config.rootDir.getD cwd) config.appIndex).1 := rfl

theorem startServerResolved_appIndexDir (cwd : String) (config : Config) :
    (startServerResolved cwd config).appIndexDir =
      (resolveAppIndexPair (config.rootDir.getD cwd) config.appIndex).2 := rfl

theorem startServerResolved_middlewares (cwd : String) (config : Config) :
    (startServerResolved cwd config).middlewares =
      (match config.customMiddlewares with
        | some ms => ms.map Stage.custom
        | none => []) ++
      [Stage.cache, Stage.etag] ++
      (if (startServerResolved cwd config).setupMessageChanel then [Stage.messageChannel] else []) ++
      (if config.watch.getD false then [Stage.reloadBrowser] else []) ++
      (if (startServerResolved cwd config).setupBabel then [Stage.babel] else []) ++
      (if (startServerResolved cwd config).setupTransformIndexHTML then [Stage.transformIndexHTML] else []) ++
      (if (startServerResolved cwd config).setupHistoryFallback then [Stage.historyFallback] else []) ++
      [Stage.koaStatic] := rfl

theorem startServerResolved_setupHistoryFallback (cwd : String) (config : Config) :
    (startServerResolved cwd config).setupHistoryFallback =
      (match (resolveAppIndexPair (config.rootDir.getD cwd) config.appIndex).1 with
        | some s => s != ""
        | none => false) := rfl

/-- Inverting a successful `startServer`: the compatibility mode passed
validation and the result is `startServerResolved`. -/
theorem startServer_ok_cases (cwd : String) (config : Config) (r : ServerResult)
    (h : startServer cwd config = Except.ok r) :
    compatibilityModesValues.contains
        (config.compatibilityMode.getD compatibilityModes.NONE) = true ∧
    r = startServerResolved cwd config := by
  unfold startServer at h
  by_cases hc : compatibilityModesValues.contains
      (config.compatibilityMode.getD compatibilityModes.NONE) = true
  · simp only [hc, if_true] at h
    exact ⟨hc, (Except.ok.injEq _ _).mp h |>.symm⟩
  · simp only [hc, if_false, Bool.false_eq_true] at h
    exact absurd h (by simp)

/-- A mode accepted by the validation is one of the three enum
values. -/
theorem mode_of_contains (m : String)
    (h : compatibilityModesValues.contains m = true) :
    m = "none" ∨ m = "modern" ∨ m = "all" := by
  simp [compatibilityModesValues, compatibilityModes, List.contains] at h
  tauto

/-! ## Claim theorems -/

/-- C1: the stage flags derived by `startServer` (lines 89–97) satisfy
the spec formulas for every accepted configuration: `setupBabel`
(needsTransform) is true iff a custom babel config is provided OR
`nodeResolve` OR the compatibility mode is `all` or `modern` OR
`readUserBabelConfig`; `setupCompatibility` (needsCompatibility) is
true iff the mode is not `none`; `setupTransformIndexHTML`
(needsHtmlTransform) `= setupBabel OR setupCompatibility`;
`setupMessageChanel` (needsReloadChannel) `= watch OR setupBabel`; and
in particular `setupBabel` is true whenever `nodeResolve` is true,
independent of the compatibility mode. -/
theorem startServer_stage_flags (cwd : String) (config : Config) (r : ServerResult)
    (h : startServer cwd config = Except.ok r) :
    (r.setupBabel =
      (config.customBabelConfig.isSome || config.nodeResolve.getD false ||
        (r.compatibilityMode == "all" || r.compatibilityMode == "modern") ||
        config.readUserBabelConfig.getD false)) ∧
    (r.setupCompatibility = (r.compatibilityMode != "none")) ∧
    (r.setupTransformIndexHTML = (r.setupBabel || r.setupCompatibility)) ∧
    (r.setupMessageChanel = (config.watch.getD false || r.setupBabel)) ∧
    (config.nodeResolve = some true → r.setupBabel = true) := by
  obtain ⟨hc, hr⟩ := startServer_ok_cases cwd config r h
  subst hr
  have hm := mode_of_contains _ hc
  simp only [compatibilityModes] at hm
  refine ⟨?_, ?_, ?_, ?_, ?_⟩
  · rcases hm with hm | hm | hm <;>
      simp [startServerResolved_setupBabel, startServerResolved_compatibilityMode,
        compatibilityModes, hm]
  · rcases hm with hm | hm | hm <;>
      simp [startServerResolved_setupCompatibility, startServerResolved_compatibilityMode,
        compatibilityModes, hm]
  · exact startServerResolved_setupTransformIndexHTML cwd config
  · exact startServerResolved_setupMessageChanel cwd config
  · intro hnr
    simp [startServerResolved_setupBabel, hnr]

/-- Witness for `startServer_stage_flags`: with `nodeResolve` enabled
and everything else defaulted, `setupBabel` is true. -/
theorem startServer_stage_flags_witness :
    (startServerResolved "/cwd" { nodeResolve := some true }).setupBabel = true :=
  (startServer_stage_flags "/cwd" { nodeResolve := some true }
      (startServerResolved "/cwd" { nodeResolve := some true }) rfl).2.2.2.2 rfl

/-- C3: for every configuration whose compatibility mode is outside
{none, modern, all}, `startServer` throws the configuration error
(lines 81–87) whose message names the invalid value and the allowed
set, and the error is raised before `listen` (line 172) is reached:
the event trace is the thrown error alone, with no `listen` event. -/
theorem startServer_invalid_mode_error (cwd : String) (config : Config) (mode : String)
    (hm : config.compatibilityMode = some mode)
    (hinv : mode ∉ ["none", "modern", "all"]) :
    startServer cwd config = Except.error (unknownCompatibilityModeMessage mode) ∧
    unknownCompatibilityModeMessage mode =
      "Unknown compatibility mode: " ++ mode ++ ". Must be one of: " ++ "none,modern,all" ∧
    startServerEvents cwd config =
      [ServerEvent.threwConfigError (unknownCompatibilityModeMessage mode)] ∧
    (∀ p hst, ServerEvent.listen p hst ∉ startServerEvents cwd config) := by
  have hgd : config.compatibilityMode.getD compatibilityModes.NONE = mode := by
    rw [hm]; rfl
  have hmem : mode ∉ compatibilityModesValues := by
    simpa [compatibilityModesValues, compatibilityModes] using hinv
  refine ⟨?_, rfl, ?_, ?_⟩
  · simp [startServer, hgd, hmem]
  · simp [startServerEvents, hgd, hmem]
  · intro p hst
    simp [startServerEvents, hgd, hmem]

/-- Witness for `startServer_invalid_mode_error` at the concrete
invalid mode `bogus`. -/
theorem startServer_invalid_mode_error_witness :
    startServer "/cwd" { compatibilityMode := some "bogus" } =
      Except.error (unknownCompatibilityModeMessage "bogus") :=
  (startServer_invalid_mode_error "/cwd" { compatibilityMode := some "bogus" } "bogus" rfl
    (by decide)).1

/-- C10: `createConfig` performs no validation and never throws: for
any provided compatibility mode, including values outside
{none, modern, all}, it returns normally (it is a total function) with
the mode passed through unchanged into the result record. -/
theorem createConfig_passes_mode_through (cwd : String) (config : Config) (mode : String)
    (hm : config.compatibilityMode = some mode) :
    (createConfig cwd config).compatibilityMode = mode := by
  simp [createConfig, hm]

/-- Witness for `createConfig_passes_mode_through` at the invalid mode
`bogus`, on which `startServer` would throw. -/
theorem createConfig_passes_mode_through_witness :
    (createConfig "/cwd" { compatibilityMode := some "bogus" }).compatibilityMode = "bogus" :=
  createConfig_passes_mode_through "/cwd" { compatibilityMode := some "bogus" } "bogus" rfl

theorem createConfig_appIndex (cwd : String) (config : Config) :
    (createConfig cwd config).appIndex =
      (resolveAppIndexPair (config.rootDir.getD cwd) config.appIndex).1 := rfl

theorem createConfig_appIndexDir (cwd : String) (config : Config) :
    (createConfig cwd config).appIndexDir =
      (resolveAppIndexPair (config.rootDir.getD cwd) config.appIndex).2 := rfl

/-- C2: appIndex normalization, as performed identically by
`createConfig` (lines 257–267) and `startServer` (lines 69–79), for a
set (truthy) appIndex: a filesystem-absolute path is rewritten to `/`
followed by the browser-path form of its path relative to `rootDir`; a
relative path not starting with `/` gets `/` prefixed to its
browser-path form; the remaining branch (a path starting with `/` that
is not filesystem-absolute, unreachable in the POSIX model where
absolute means a leading `/`) passes through unchanged; and
`appIndexDir` is the substring of the normalized appIndex up to
(excluding) the last `/`. -/
theorem appIndex_normalization (cwd : String) (config : Config) (s : String)
    (hset : config.appIndex = some s) (hne : s ≠ "") :
    (path.isAbsolute s = true →
      (createConfig cwd config).appIndex =
        some ("/" ++ toBrowserPath (path.relative (config.rootDir.getD cwd) s))) ∧
    (path.isAbsolute s = false → jsStartsWith s "/" = false →
      (createConfig cwd config).appIndex = some ("/" ++ toBrowserPath s)) ∧
    (path.isAbsolute s = false → jsStartsWith s "/" = true →
      (createConfig cwd config).appIndex = some s) ∧
    (∀ a, (createConfig cwd config).appIndex = some a →
      (createConfig cwd config).appIndexDir =
        some (jsSubstringTo a (lastIndexOf a '/'))) ∧
    (∀ r, startServer cwd config = Except.ok r →
      r.appIndex = (createConfig cwd config).appIndex ∧
      r.appIndexDir = (createConfig cwd config).appIndexDir) := by
  have hpair : resolveAppIndexPair (config.rootDir.getD cwd) config.appIndex =
      (some (resolveAppIndex (config.rootDir.getD cwd) s),
       some (appIndexDirOf (resolveAppIndex (config.rootDir.getD cwd) s))) := by
    simp [resolveAppIndexPair, hset, hne]
  refine ⟨?_, ?_, ?_, ?_, ?_⟩
  · intro hab
    simp [createConfig_appIndex, hpair, resolveAppIndex, hab]
  · intro hab hsw
    simp [createConfig_appIndex, hpair, resolveAppIndex, hab, hsw]
  · intro hab hsw
    rw [path.isAbsolute, hsw] at hab
    simp at hab
  · intro a ha
    rw [createConfig_appIndex, hpair] at ha
    simp only [Option.some.injEq] at ha
    subst ha
    rw [createConfig_appIndexDir, hpair]
    rfl
  · intro r hr
    obtain ⟨-, hr2⟩ := startServer_ok_cases cwd config r hr
    subst hr2
    exact ⟨rfl, rfl⟩

/-- Witness for `appIndex_normalization`: a relative appIndex gets a
leading slash. -/
theorem appIndex_normalization_witness :
    (createConfig "/cwd" { appIndex := some "src/index.html" }).appIndex =
      some ("/" ++ toBrowserPath "src/index.html") :=
  (appIndex_normalization "/cwd" { appIndex := some "src/index.html" } "src/index.html" rfl
    (by decide)).2.1 (by decide) (by decide)

/-- C6: for every configuration with appIndex set (a non-empty string,
the code's truthiness test), the resolved `appIndexDir` is a defined,
non-null string after configuration resolution, in both `createConfig`
and `startServer`. -/
theorem appIndexDir_derivable (cwd : String) (config : Config) (s : String)
    (hset : config.appIndex = some s) (hne : s ≠ "") :
    (createConfig cwd config).appIndexDir.isSome = true ∧
    (∀ r, startServer cwd config = Except.ok r → r.appIndexDir.isSome = true) := by
  have hpair : resolveAppIndexPair (config.rootDir.getD cwd) config.appIndex =
      (some (resolveAppIndex (config.rootDir.getD cwd) s),
       some (appIndexDirOf (resolveAppIndex (config.rootDir.getD cwd) s))) := by
    simp [resolveAppIndexPair, hset, hne]
  constructor
  · rw [createConfig_appIndexDir, hpair]
    rfl
  · intro r hr
    obtain ⟨-, hr2⟩ := startServer_ok_cases cwd config r hr
    subst hr2
    rw [startServerResolved_appIndexDir, hpair]
    rfl

/-- Witness for `appIndexDir_derivable` at a concrete configuration. -/
theorem appIndexDir_derivable_witness :
    (createConfig "/cwd" { appIndex := some "index.html" }).appIndexDir.isSome = true :=
  (appIndexDir_derivable "/cwd" { appIndex := some "index.html" } "index.html" rfl (by decide)).1

theorem startServerResolved_port (cwd : String) (config : Config) :
    (startServerResolved cwd config).port = config.port.getD 8080 := rfl

theorem startServerResolved_hostname (cwd : String) (config : Config) :
    (startServerResolved cwd config).hostname = config.hostname.getD "127.0.0.1" := rfl

theorem startServerResolved_rootDir (cwd : String) (config : Config) :
    (startServerResolved cwd config).rootDir = config.rootDir.getD cwd := rfl

theorem startServerResolved_moduleDirectories (cwd : String) (config : Config) :
    (startServerResolved cwd config).moduleDirectories =
      config.moduleDirectories.getD ["node_modules"] := rfl

theorem startServerResolved_watchDebounce (cwd : String) (config : Config) :
    (startServerResolved cwd config).watchDebounce = config.watchDebounce.getD 1000 := rfl

theorem startServerResolved_watchExcludes (cwd : String) (config : Config) :
    (startServerResolved cwd config).watchExcludes =
      config.watchExcludes.getD ["node_modules/**"] := rfl

/-- C4: pipeline assembly (lines 99–166): for every accepted
configuration the middleware chain is, in order, the user-supplied
custom middlewares (in their given order, if any), then response
caching and etag, then the message channel when `setupMessageChanel`,
then reload-browser wiring when `watch`, then the babel code transform
when `setupBabel`, then the HTML transform when
`setupTransformIndexHTML`, then history fallback when
`setupHistoryFallback`, then static file serving as the terminal
stage; when `setupMessageChanel` is false the message-channel stage is
entirely absent from the chain. -/
theorem pipeline_assembly_order (cwd : String) (config : Config) (r : ServerResult)
    (h : startServer cwd config = Except.ok r) :
    r.middlewares =
      (config.customMiddlewares.getD []).map Stage.custom ++
      [Stage.cache, Stage.etag] ++
      (if r.setupMessageChanel then [Stage.messageChannel] else []) ++
      (if r.watch then [Stage.reloadBrowser] else []) ++
      (if r.setupBabel then [Stage.babel] else []) ++
      (if r.setupTransformIndexHTML then [Stage.transformIndexHTML] else []) ++
      (if r.setupHistoryFallback then [Stage.historyFallback] else []) ++
      [Stage.koaStatic] ∧
    (r.setupMessageChanel = false → Stage.messageChannel ∉ r.middlewares) ∧
    r.middlewares.getLast? = some Stage.koaStatic := by
  obtain ⟨-, hr⟩ := startServer_ok_cases cwd config r h
  subst hr
  have heq := startServerResolved_middlewares cwd config
  refine ⟨?_, ?_, ?_⟩
  · cases hcm : config.customMiddlewares <;> simp only [hcm] at heq ⊢ <;>
      rw [heq] <;> rfl
  · intro hmc
    rw [heq, hmc]
    cases hcm : config.customMiddlewares <;> simp only [hcm] <;>
      split_ifs <;> simp_all [List.mem_map]
  · rw [heq]
    rw [List.getLast?_concat]

/-- Witness for `pipeline_assembly_order`: the default configuration
yields the bare chain cache → etag → static. -/
theorem pipeline_assembly_order_witness :
    (startServerResolved "/cwd" {}).middlewares.getLast? = some Stage.koaStatic :=
  (pipeline_assembly_order "/cwd" {} (startServerResolved "/cwd" {}) rfl).2.2

/-- C5: for the configuration `{rootDir: "/app", appIndex:
"index.html", watch: true}`, `startServer` resolves `appIndex` to
`/index.html` and `appIndexDir` to the empty string, and derives
`setupHistoryFallback` and `setupMessageChanel` true. -/
theorem scenario_rootdir_appindex_watch :
    ∃ r, startServer "/cwd"
        { rootDir := some "/app", appIndex := some "index.html", watch := some true } =
        Except.ok r ∧
      r.appIndex = some "/index.html" ∧ r.appIndexDir = some "" ∧
      r.setupHistoryFallback = true ∧ r.setupMessageChanel = true := by
  refine ⟨_, rfl, ?_, ?_, ?_, ?_⟩ <;> decide

/-- C7: every omitted field resolves to its documented default (port
8080, hostname 127.0.0.1, rootDir = the process working directory,
moduleDirectories = [node_modules], watch = false, compatibilityMode =
none, watchDebounce = 1000, watchExcludes = [node_modules/**]), in
both `createConfig` and `startServer`. -/
theorem config_defaults (cwd : String) (config : Config) :
    (config.port = none → (createConfig cwd config).port = 8080) ∧
    (config.hostname = none → (createConfig cwd config).hostname = "127.0.0.1") ∧
    (config.rootDir = none → (createConfig cwd config).rootDir = cwd) ∧
    (config.moduleDirectories = none →
      (createConfig cwd config).moduleDirectories = ["node_modules"]) ∧
    (config.watch = none → (createConfig cwd config).watch = false) ∧
    (config.compatibilityMode = none →
      (createConfig cwd config).compatibilityMode = "none") ∧
    (config.watchDebounce = none → (createConfig cwd config).watchDebounce = 1000) ∧
    (config.watchExcludes = none →
      (createConfig cwd config).watchExcludes = ["node_modules/**"]) ∧
    (∀ r, startServer cwd config = Except.ok r →
      (config.port = none → r.port = 8080) ∧
      (config.hostname = none → r.hostname = "127.0.0.1") ∧
      (config.rootDir = none → r.rootDir = cwd) ∧
      (config.moduleDirectories = none → r.moduleDirectories = ["node_modules"]) ∧
      (config.watch = none → r.watch = false) ∧
      (config.compatibilityMode = none → r.compatibilityMode = "none") ∧
      (config.watchDebounce = none → r.watchDebounce = 1000) ∧
      (config.watchExcludes = none → r.watchExcludes = ["node_modules/**"])) := by
  refine ⟨fun h => by simp [createConfig, h], fun h => by simp [createConfig, h],
    fun h => by simp [createConfig, h], fun h => by simp [createConfig, h],
    fun h => by simp [createConfig, h], fun h => by simp [createConfig, h, compatibilityModes],
    fun h => by simp [createConfig, h], fun h => by simp [createConfig, h], ?_⟩
  intro r hr
  obtain ⟨-, hr2⟩ := startServer_ok_cases cwd config r hr
  subst hr2
  exact ⟨fun h => by simp [startServerResolved_port, h],
    fun h => by simp [startServerResolved_hostname, h],
    fun h => by simp [startServerResolved_rootDir, h],
    fun h => by simp [startServerResolved_moduleDirectories, h],
    fun h => by simp [startServerResolved_watch, h],
    fun h => by simp [startServerResolved_compatibilityMode, h, compatibilityModes],
    fun h => by simp [startServerResolved_watchDebounce, h],
    fun h => by simp [startServerResolved_watchExcludes, h]⟩

/-- Witness for `config_defaults`: the empty configuration resolves to
port 8080. -/
theorem config_defaults_witness :
    (createConfig "/cwd" {}).port = 8080 :=
  (config_defaults "/cwd" {}).1 rfl

/-- C8: a file watcher is created iff `watch` is true (line 101), it
starts watching no paths, and the server's close listener (lines
186–190) closes any created watcher, so no open watcher survives
`serverClose`; when `watch` is false the watcher is `none` and nothing
needs closing. -/
theorem watcher_lifecycle (cwd : String) (config : Config) (r : ServerResult)
    (h : startServer cwd config = Except.ok r) :
    (r.fileWatcher.isSome = r.watch) ∧
    (r.watch = false → r.fileWatcher = none) ∧
    (∀ fw, r.fileWatcher = some fw → fw.paths = [] ∧ fw.closed = false) ∧
    (∀ fw, (serverClose r).fileWatcher = some fw → fw.closed = true) := by
  obtain ⟨-, hr⟩ := startServer_ok_cases cwd config r h
  subst hr
  cases hw : config.watch.getD false <;>
    simp [startServerResolved_fileWatcher, startServerResolved_watch, serverClose, hw]

/-- Witness for `watcher_lifecycle`: with `watch` enabled a watcher is
created. -/
theorem watcher_lifecycle_witness :
    (startServerResolved "/cwd" { watch := some true }).fileWatcher.isSome =
      (startServerResolved "/cwd" { watch := some true }).watch :=
  (watcher_lifecycle "/cwd" { watch := some true }
    (startServerResolved "/cwd" { watch := some true }) rfl).1

/-- C9: an empty-string appIndex is falsy in JS and treated as absent:
no normalization happens (it is passed through as the empty string),
`appIndexDir` stays undefined, `setupHistoryFallback` is false and the
history-fallback stage is not installed in the pipeline. -/
theorem empty_appindex_treated_absent :
    ∃ r, startServer "/cwd" { appIndex := some "" } = Except.ok r ∧
      r.appIndex = some "" ∧ r.appIndexDir = none ∧
      r.setupHistoryFallback = false ∧
      Stage.historyFallback ∉ r.middlewares := by
  refine ⟨_, rfl, rfl, rfl, rfl, ?_⟩
  decide
